import Mathlib

/-!
Verification of the TechTaskArm update-coordination system.

This file gives a shallow embedding of the core logic of the repository:

* the CoAP block-wise transfer handler
  (`main_server_coap/app/coap_resources.py`, `UpdateResource._handle_block_transfer`),
* the job orchestrator
  (`main_server/app/update_manager.py`, `UpdateManager._execute_update_job`,
  `_send_update_to_node`, `_rollback_failed_nodes`),
* the request submission endpoint
  (`main_server/app/main.py`, `create_update`, with
  `UpdateManager.process_update_request`),
* the node update pipelines
  (`regular_node/agent/update_handler.py`, `UpdateHandler.install_update`;
  `regular_node_coap/agent/update_handler.py`, `CoAPUpdateHandler.install_update`),
* the node rollback endpoint (`regular_node/agent/main.py`, `receive_rollback`).

Byte strings are modelled as `List Nat`, Python dictionaries with optional
keys as structures of `Option` fields, and raised exceptions as `Except`
values carrying the exception text.
-/

namespace TechTaskArm

/-! ## Shared data model (`main_server/app/models.py`) -/

/-- Status of an update operation (`UpdateStatus` in `models.py`). -/
inductive UpdateStatus
  | pending
  | inProgress
  | success
  | failed
  | rolledBack
deriving DecidableEq, Repr

/-- Status of a regular node (`NodeStatus` in `models.py`). -/
inductive NodeStatus
  | online
  | offline
  | updating
  | error
deriving DecidableEq, Repr

/-- The part of a node registry record the orchestrator consults
(`NodeInfo` in `models.py`, restricted to the fields that drive control
flow: the identifier and the status). -/
structure NodeRec where
  nodeId : String
  status : NodeStatus
deriving DecidableEq, Repr

/-! ## Block-wise transfer
(`main_server_coap/app/coap_resources.py`, `UpdateResource._handle_block_transfer`) -/

/-- Block size derived from the size exponent: `block_size = 2 ** (4 + block1.szx)`. -/
def blockSize (szx : Nat) : Nat := 2 ^ (4 + szx)

/-- The payload served for block `num`: the handler seeks to
`block_num * block_size` and reads up to `block_size` bytes. -/
def blockPayload (file : List Nat) (num szx : Nat) : List Nat :=
  (file.drop (num * blockSize szx)).take (blockSize szx)

/-- The `more` flag of the response: the handler sets
`is_last_block = (block_num + 1) * block_size >= file_size` and answers
with `m = not is_last_block`. -/
def blockMore (file : List Nat) (num szx : Nat) : Bool :=
  decide ((num + 1) * blockSize szx < file.length)

/-- The block size is positive. -/
theorem blockSize_pos (szx : Nat) : 0 < blockSize szx :=
  Nat.pos_pow_of_pos _ (by decide)

/-- Client-side reassembly as the spec describes it: request blocks
`num, num+1, ...`, append each payload in order, and stop at the first
response whose `more` flag is false. -/
def reassembleFrom (file : List Nat) (szx num : Nat) : List Nat :=
  if blockMore file num szx then
    blockPayload file num szx ++ reassembleFrom file szx (num + 1)
  else
    blockPayload file num szx
termination_by file.length - num * blockSize szx
decreasing_by
  rename_i h
  simp only [blockMore, decide_eq_true_eq] at h
  have hbs : 0 < blockSize szx := blockSize_pos szx
  have hmul : (num + 1) * blockSize szx = num * blockSize szx + blockSize szx :=
    Nat.succ_mul num (blockSize szx)
  omega

/-- Reassembly of a whole file starts at block 0. -/
def reassemble (file : List Nat) (szx : Nat) : List Nat :=
  reassembleFrom file szx 0

theorem reassembleFrom_eq_drop (file : List Nat) (szx : Nat) :
    ∀ k num, file.length - num * blockSize szx ≤ k →
      reassembleFrom file szx num = file.drop (num * blockSize szx) := by
  intro k
  induction k with
  | zero =>
    intro num h
    have hlen : file.length ≤ num * blockSize szx := by omega
    rw [reassembleFrom]
    have hmore : blockMore file num szx = false := by
      simp only [blockMore, decide_eq_false_iff_not, not_lt]
      have : num * blockSize szx ≤ (num + 1) * blockSize szx :=
        Nat.mul_le_mul_right _ (Nat.le_succ num)
      omega
    rw [hmore]
    simp only [Bool.false_eq_true, if_false, blockPayload]
    have hdrop : (file.drop (num * blockSize szx)).length = 0 := by
      simp [List.length_drop]; omega
    have : file.drop (num * blockSize szx) = [] := List.eq_nil_of_length_eq_zero hdrop
    rw [this]
    simp
  | succ k ih =>
    intro num h
    rw [reassembleFrom]
    by_cases hmore : blockMore file num szx = true
    · rw [hmore]
      simp only [if_true]
      have hlt : (num + 1) * blockSize szx < file.length := by
        simpa [blockMore] using hmore
      have hbs : 0 < blockSize szx := blockSize_pos szx
      have hmul : (num + 1) * blockSize szx = num * blockSize szx + blockSize szx :=
        Nat.succ_mul num (blockSize szx)
      have hrec : reassembleFrom file szx (num + 1) =
          file.drop ((num + 1) * blockSize szx) := by
        apply ih
        omega
      rw [hrec, blockPayload, hmul]
      rw [← List.drop_drop]
      exact List.take_append_drop _ _
    · rw [Bool.not_eq_true] at hmore
      rw [hmore]
      simp only [Bool.false_eq_true, if_false, blockPayload]
      have hge : file.length ≤ (num + 1) * blockSize szx := by
        have := hmore
        simp only [blockMore, decide_eq_false_iff_not, not_lt] at this
        exact this
      have hmul : (num + 1) * blockSize szx = num * blockSize szx + blockSize szx :=
        Nat.succ_mul num (blockSize szx)
      apply List.take_of_length_le
      simp [List.length_drop]
      omega

/-- C5: splitting a file into `2 ^ (4 + szx)`-sized blocks and
reassembling the payloads in block order, stopping at the first response
with `more = false`, reproduces the original bytes exactly, for every
file (any size, including 0) and every block-size exponent. -/
theorem block_transfer_round_trip (file : List Nat) (szx : Nat) :
    reassemble file szx = file := by
  have h := reassembleFrom_eq_drop file szx (file.length) 0 (by omega)
  simpa [reassemble] using h

/-- C6: a block-read request `(file, num, szx)` is answered with the
up-to-`blockSize` bytes of the file starting at offset
`num * blockSize szx`, the `more` flag is true exactly when
`(num + 1) * blockSize szx < file.length`, and a request whose offset
lies at or past end-of-file yields a zero-length block with a false
`more` flag. -/
theorem block_read_serves_offset (file : List Nat) (num szx : Nat) :
    (∀ i, i < (blockPayload file num szx).length →
      (blockPayload file num szx)[i]? = file[num * blockSize szx + i]?) ∧
    (blockPayload file num szx).length
      = min (blockSize szx) (file.length - num * blockSize szx) ∧
    (blockMore file num szx = true ↔ (num + 1) * blockSize szx < file.length) ∧
    (file.length ≤ num * blockSize szx →
      blockPayload file num szx = [] ∧ blockMore file num szx = false) := by
  refine ⟨?_, ?_, ?_, ?_⟩
  · intro i hi
    simp only [blockPayload, List.length_take, List.length_drop] at hi
    have hi1 : i < blockSize szx := lt_of_lt_of_le hi (min_le_left _ _)
    rw [blockPayload, List.getElem?_take, if_pos hi1, List.getElem?_drop]
  · simp [blockPayload, List.length_take, List.length_drop]
  · simp [blockMore]
  · intro h
    constructor
    · apply List.eq_nil_of_length_eq_zero
      simp only [blockPayload, List.length_take, List.length_drop]
      omega
    · simp only [blockMore, decide_eq_false_iff_not, not_lt]
      have : num * blockSize szx ≤ (num + 1) * blockSize szx :=
        Nat.mul_le_mul_right _ (Nat.le_succ num)
      omega

/-- Witness for C6: reading block 1 of the 3-byte file `[7, 8, 9]` with
`szx = 0` (offset 16, past end-of-file) yields an empty payload with a
false `more` flag. -/
theorem block_read_serves_offset_witness :
    blockPayload [7, 8, 9] 1 0 = [] ∧ blockMore [7, 8, 9] 1 0 = false :=
  (block_read_serves_offset [7, 8, 9] 1 0).2.2.2 (by decide)

/-! ## Job orchestrator (`main_server/app/update_manager.py`) -/

/-- Registry lookup (`Database.get_node`, keyed by `node_id`). -/
def lookupNode (registry : List NodeRec) (nid : String) : Option NodeRec :=
  registry.find? (fun n => n.nodeId = nid)

/-- Target resolution loop of `_execute_update_job` (lines 54-62): a
target id is kept when its registry record exists and is ONLINE,
otherwise it is skipped with a logged warning. -/
def resolveNodes (registry : List NodeRec) (targets : List String) : List NodeRec :=
  targets.filterMap (fun nid =>
    match lookupNode registry nid with
    | some n => if n.status = NodeStatus.online then some n else none
    | none => none)

/-- A per-node dispatch result as `asyncio.gather(..., return_exceptions=True)`
delivers it: `none` when the task raised, `some b` when it returned a dict
whose `result.get('success', False)` is `b`. -/
def nodeStatusOf (r : Option Bool) : UpdateStatus :=
  if r = some true then UpdateStatus.success else UpdateStatus.failed

/-- Python-dict assignment `d[k] = v`: replace the value of an existing
key in place, otherwise append the binding. -/
def dinsert (d : List (String × UpdateStatus)) (k : String) (v : UpdateStatus) :
    List (String × UpdateStatus) :=
  match d with
  | [] => [(k, v)]
  | (k₁, v₁) :: rest => if k₁ = k then (k, v) :: rest else (k₁, v₁) :: dinsert rest k v

/-- Observable effects of one run of `_execute_update_job`. -/
structure JobRun where
  /-- Final `Job.status` written by `update_job_status`. -/
  status : UpdateStatus
  /-- Final `Job.error_message` (set only in the exception handler). -/
  errorMessage : Option String
  /-- Final contents of the `job.node_statuses` dict. -/
  nodeStatuses : List (String × UpdateStatus)
  /-- Node ids `_rollback_failed_nodes` sends a rollback command to. -/
  rollbackTargets : List String
  /-- All `NodeUpdateStatus` records created by the dispatch tasks, in
  dispatch order, with the status they are created with. -/
  createdRecords : List (String × UpdateStatus)
deriving DecidableEq, Repr

/-- One run of `UpdateManager._execute_update_job` (lines 44-118),
parameterised by the registry contents and by the per-node dispatch
results. If no target is ONLINE the body raises
`Exception("No online nodes available for update")`, which the handler
converts into a FAILED job with that text as `error_message`. Otherwise
the results are aggregated: `failed_count = 0` gives SUCCESS, any
failure gives FAILED and triggers `_rollback_failed_nodes`, which sends
a rollback to every node whose entry in `job.node_statuses` is FAILED
and whose registry record still exists. Each dispatch task first creates
a `NodeUpdateStatus` record with status IN_PROGRESS
(`_send_update_to_node`, lines 123-130). -/
def executeJob (registry : List NodeRec) (targets : List String)
    (dispatch : String → Option Bool) : JobRun :=
  let nodes := resolveNodes registry targets
  if nodes = [] then
    { status := UpdateStatus.failed
      errorMessage := some "No online nodes available for update"
      nodeStatuses := []
      rollbackTargets := []
      createdRecords := [] }
  else
    let results := nodes.map (fun n => (n.nodeId, dispatch n.nodeId))
    let statuses := results.foldl (fun d p => dinsert d p.1 (nodeStatusOf p.2)) []
    let failedCount := (results.filter (fun p => ¬ (p.2 = some true))).length
    let failedNodes := (statuses.filter (fun p => p.2 = UpdateStatus.failed)).map Prod.fst
    { status := if failedCount = 0 then UpdateStatus.success else UpdateStatus.failed
      errorMessage := none
      nodeStatuses := statuses
      rollbackTargets :=
        if failedCount = 0 then []
        else failedNodes.filter (fun nid => (lookupNode registry nid).isSome)
      createdRecords := nodes.map (fun n => (n.nodeId, UpdateStatus.inProgress)) }

theorem dinsert_of_not_mem_keys (d : List (String × UpdateStatus)) (k : String)
    (v : UpdateStatus) (h : k ∉ d.map Prod.fst) : dinsert d k v = d ++ [(k, v)] := by
  induction d with
  | nil => rfl
  | cons p rest ih =>
    obtain ⟨k₁, v₁⟩ := p
    simp only [List.map_cons, List.mem_cons, not_or] at h
    have hne : k₁ ≠ k := fun hk => h.1 hk.symm
    simp only [dinsert, if_neg hne, List.cons_append, List.cons.injEq, true_and]
    exact ih h.2

theorem foldl_dinsert_eq_append (ps : List (String × Option Bool))
    (acc : List (String × UpdateStatus))
    (hd : ∀ p ∈ ps, p.1 ∉ acc.map Prod.fst)
    (hn : (ps.map Prod.fst).Nodup) :
    ps.foldl (fun d p => dinsert d p.1 (nodeStatusOf p.2)) acc
      = acc ++ ps.map (fun p => (p.1, nodeStatusOf p.2)) := by
  induction ps generalizing acc with
  | nil => simp
  | cons p rest ih =>
    simp only [List.foldl_cons]
    have hp : p.1 ∉ acc.map Prod.fst := hd p (List.mem_cons_self p rest)
    rw [dinsert_of_not_mem_keys acc p.1 _ hp]
    simp only [List.map_cons, List.nodup_cons] at hn
    rw [ih (acc ++ [(p.1, nodeStatusOf p.2)])]
    · simp
    · intro q hq
      simp only [List.map_append, List.mem_append, List.map_cons, List.map_nil,
        List.mem_singleton, not_or]
      refine ⟨hd q (List.mem_cons_of_mem p hq), fun hqe => ?_⟩
      exact hn.1 (hqe ▸ List.mem_map_of_mem Prod.fst hq)
    · exact hn.2

theorem mem_resolveNodes_lookup (registry : List NodeRec) (targets : List String)
    (n : NodeRec) (h : n ∈ resolveNodes registry targets) :
    lookupNode registry n.nodeId = some n := by
  simp only [resolveNodes, List.mem_filterMap] at h
  obtain ⟨t, _, ht⟩ := h
  cases hl : lookupNode registry t with
  | none => simp [hl] at ht
  | some m =>
    simp only [hl] at ht
    by_cases hs : m.status = NodeStatus.online
    · rw [if_pos hs, Option.some.injEq] at ht
      subst ht
      have := List.find?_some hl
      have hid : m.nodeId = t := by simpa using this
      rw [hid]
      exact hl
    · rw [if_neg hs] at ht; exact absurd ht (by simp)

theorem nodup_keys_value_eq {α : Type} [DecidableEq α] (l : List (String × α))
    (hn : (l.map Prod.fst).Nodup) (k : String) (a b : α)
    (ha : (k, a) ∈ l) (hb : (k, b) ∈ l) : a = b := by
  induction l with
  | nil => exact absurd ha (List.not_mem_nil _)
  | cons p rest ih =>
    simp only [List.map_cons, List.nodup_cons] at hn
    rcases List.mem_cons.mp ha with ha₁ | ha₂ <;>
      rcases List.mem_cons.mp hb with hb₁ | hb₂
    · rw [← ha₁] at hb₁; exact (Prod.mk.injEq _ _ _ _ ▸ hb₁).2.symm ▸ rfl
    · exfalso
      apply hn.1
      rw [← ha₁]
      simpa using List.mem_map_of_mem Prod.fst hb₂
    · exfalso
      apply hn.1
      rw [← hb₁]
      simpa using List.mem_map_of_mem Prod.fst ha₂
    · exact ih hn.2 ha₂ hb₂

/-- C1: for a job with at least one dispatched node (distinct node ids),
after all dispatch tasks resolve the job status is SUCCESS exactly when
every dispatched node's status is SUCCESS; and if some dispatched node
failed, the job status is FAILED, the rollback dispatch targets are
exactly the failed nodes, and nodes that succeeded receive no rollback
(they are left updated). -/
theorem job_aggregation (registry : List NodeRec) (targets : List String)
    (dispatch : String → Option Bool)
    (hne : resolveNodes registry targets ≠ [])
    (hnd : ((resolveNodes registry targets).map NodeRec.nodeId).Nodup) :
    ((executeJob registry targets dispatch).status = UpdateStatus.success ↔
      ∀ p ∈ (executeJob registry targets dispatch).nodeStatuses,
        p.2 = UpdateStatus.success) ∧
    ((∃ p ∈ (executeJob registry targets dispatch).nodeStatuses,
        p.2 = UpdateStatus.failed) →
      (executeJob registry targets dispatch).status = UpdateStatus.failed ∧
      (∀ nid, nid ∈ (executeJob registry targets dispatch).rollbackTargets ↔
        (nid, UpdateStatus.failed) ∈
          (executeJob registry targets dispatch).nodeStatuses) ∧
      (∀ nid, (nid, UpdateStatus.success) ∈
          (executeJob registry targets dispatch).nodeStatuses →
        nid ∉ (executeJob registry targets dispatch).rollbackTargets)) := by
  set nodes := resolveNodes registry targets with hnodes
  have hkeys : (nodes.map (fun n => (n.nodeId, dispatch n.nodeId))).map Prod.fst
      = nodes.map NodeRec.nodeId := by
    simp [List.map_map]
  have hfold :
      (nodes.map (fun n => (n.nodeId, dispatch n.nodeId))).foldl
          (fun d p => dinsert d p.1 (nodeStatusOf p.2)) []
        = nodes.map (fun n => (n.nodeId, nodeStatusOf (dispatch n.nodeId))) := by
    rw [foldl_dinsert_eq_append _ _ (by simp) (by rw [hkeys]; exact hnd)]
    simp [List.map_map]
  have hrun : executeJob registry targets dispatch =
      let results := nodes.map (fun n => (n.nodeId, dispatch n.nodeId))
      let statuses := nodes.map (fun n => (n.nodeId, nodeStatusOf (dispatch n.nodeId)))
      let failedCount := (results.filter (fun p => ¬ (p.2 = some true))).length
      let failedNodes :=
        (statuses.filter (fun p => p.2 = UpdateStatus.failed)).map Prod.fst
      { status := if failedCount = 0 then UpdateStatus.success else UpdateStatus.failed
        errorMessage := none
        nodeStatuses := statuses
        rollbackTargets :=
          if failedCount = 0 then []
          else failedNodes.filter (fun nid => (lookupNode registry nid).isSome)
        createdRecords := nodes.map (fun n => (n.nodeId, UpdateStatus.inProgress)) } := by
    rw [executeJob, if_neg hne]
    simp only [← hnodes, hfold]
  rw [hrun]
  simp only
  have hstatnodup :
      ((nodes.map (fun n => (n.nodeId, nodeStatusOf (dispatch n.nodeId)))).map
        Prod.fst).Nodup := by
    simpa [List.map_map, Function.comp] using hnd
  have hcount :
      ((nodes.map (fun n => (n.nodeId, dispatch n.nodeId))).filter
          (fun p => ¬ (p.2 = some true))).length = 0 ↔
        ∀ n ∈ nodes, dispatch n.nodeId = some true := by
    rw [List.length_eq_zero, List.filter_eq_nil_iff]
    constructor
    · intro h n hn
      have := h (n.nodeId, dispatch n.nodeId) (List.mem_map_of_mem _ hn)
      simpa using this
    · intro h p hp
      rcases List.mem_map.mp hp with ⟨n, hn, rfl⟩
      simp [h n hn]
  constructor
  · constructor
    · intro hs p hp
      rcases List.mem_map.mp hp with ⟨n, hn, rfl⟩
      by_cases hc :
          ((nodes.map (fun n => (n.nodeId, dispatch n.nodeId))).filter
            (fun p => ¬ (p.2 = some true))).length = 0
      · have := hcount.mp hc n hn
        simp [nodeStatusOf, this]
      · rw [if_neg hc] at hs
        exact absurd hs (by decide)
    · intro hall
      rw [if_pos]
      rw [hcount]
      intro n hn
      have := hall (n.nodeId, nodeStatusOf (dispatch n.nodeId)) (List.mem_map_of_mem _ hn)
      simp only [nodeStatusOf] at this
      by_cases hd : dispatch n.nodeId = some true
      · exact hd
      · rw [if_neg hd] at this; exact absurd this (by decide)
  · intro hex
    have hcnz :
        ¬ ((nodes.map (fun n => (n.nodeId, dispatch n.nodeId))).filter
            (fun p => ¬ (p.2 = some true))).length = 0 := by
      intro hc
      obtain ⟨p, hp, hpf⟩ := hex
      rcases List.mem_map.mp hp with ⟨n, hn, rfl⟩
      have := hcount.mp hc n hn
      simp only [nodeStatusOf, this, if_pos rfl] at hpf
      exact absurd hpf (by decide)
    rw [if_neg hcnz, if_neg hcnz]
    refine ⟨rfl, ?_, ?_⟩
    · intro nid
      constructor
      · intro hmem
        rcases List.mem_filter.mp hmem with ⟨hmf, _⟩
        rcases List.mem_map.mp hmf with ⟨q, hq, rfl⟩
        rcases List.mem_filter.mp hq with ⟨hqm, hqf⟩
        have : q.2 = UpdateStatus.failed := by simpa using hqf
        rw [← this]
        exact hqm
      · intro hmem
        apply List.mem_filter.mpr
        constructor
        · exact List.mem_map.mpr ⟨(nid, UpdateStatus.failed),
            List.mem_filter.mpr ⟨hmem, by simp⟩, rfl⟩
        · rcases List.mem_map.mp hmem with ⟨n, hn, he⟩
          have hid : n.nodeId = nid := congrArg Prod.fst he
          have := mem_resolveNodes_lookup registry targets n (hnodes ▸ hn)
          rw [hid] at this
          simp [this]
    · intro nid hsucc hroll
      rcases List.mem_filter.mp hroll with ⟨hmf, _⟩
      rcases List.mem_map.mp hmf with ⟨q, hq, rfl⟩
      rcases List.mem_filter.mp hq with ⟨hqm, hqf⟩
      have hqval : q.2 = UpdateStatus.failed := by simpa using hqf
      have : UpdateStatus.success = UpdateStatus.failed := by
        apply nodup_keys_value_eq _ hstatnodup q.1 _ _ hsucc
        rw [← hqval]
        exact hqm
      exact absurd this (by decide)

/-- Witness for C1: with nodes A (succeeds) and B (fails) both online,
the job is FAILED, the node statuses are A ↦ SUCCESS and B ↦ FAILED, and
rollback is dispatched to B but not to A. -/
theorem job_aggregation_witness :
    (executeJob [⟨"A", NodeStatus.online⟩, ⟨"B", NodeStatus.online⟩] ["A", "B"]
        (fun nid => some (nid = "A"))).status = UpdateStatus.failed ∧
    "B" ∈ (executeJob [⟨"A", NodeStatus.online⟩, ⟨"B", NodeStatus.online⟩] ["A", "B"]
        (fun nid => some (nid = "A"))).rollbackTargets ∧
    "A" ∉ (executeJob [⟨"A", NodeStatus.online⟩, ⟨"B", NodeStatus.online⟩] ["A", "B"]
        (fun nid => some (nid = "A"))).rollbackTargets := by
  have h := job_aggregation [⟨"A", NodeStatus.online⟩, ⟨"B", NodeStatus.online⟩]
    ["A", "B"] (fun nid => some (nid = "A")) (by decide) (by decide)
  have hex := h.2 ⟨("B", UpdateStatus.failed), by decide, rfl⟩
  exact ⟨hex.1, (hex.2.1 "B").mpr (by decide),
    hex.2.2 "A" (by decide)⟩

/-- C8 amended: when no target node resolves to an ONLINE registry
record, the job fails immediately with
`error_message = "No online nodes available for update"`, no rollback is
dispatched, no per-node status entry is recorded, and no
`NodeUpdateStatus` record is created. -/
theorem job_no_online_nodes (registry : List NodeRec) (targets : List String)
    (dispatch : String → Option Bool)
    (h : resolveNodes registry targets = []) :
    executeJob registry targets dispatch =
      { status := UpdateStatus.failed
        errorMessage := some "No online nodes available for update"
        nodeStatuses := []
        rollbackTargets := []
        createdRecords := [] } := by
  rw [executeJob, h]
  rfl

/-- Witness for C8 (amended): a single offline target node makes the job
fail with the message `"No online nodes available for update"` and an
empty set of created records and rollback targets. -/
theorem job_no_online_nodes_witness :
    executeJob [⟨"A", NodeStatus.offline⟩] ["A"] (fun _ => some true) =
      { status := UpdateStatus.failed
        errorMessage := some "No online nodes available for update"
        nodeStatuses := []
        rollbackTargets := []
        createdRecords := [] } :=
  job_no_online_nodes [⟨"A", NodeStatus.offline⟩] ["A"] (fun _ => some true)
    (by decide)

/-- C8 counterexample: for a job whose single target node A is offline at
dispatch time, the stored `error_message` is
`"No online nodes available for update"`, which is not the string
`"no online nodes available"` stated by the claim. -/
theorem job_no_online_nodes_message_counterexample :
    (executeJob [⟨"A", NodeStatus.offline⟩] ["A"] (fun _ => some true)).errorMessage
        = some "No online nodes available for update" ∧
    (executeJob [⟨"A", NodeStatus.offline⟩] ["A"] (fun _ => some true)).errorMessage
        ≠ some "no online nodes available" ∧
    (executeJob [⟨"A", NodeStatus.offline⟩] ["A"] (fun _ => some true)).status
        = UpdateStatus.failed := by
  refine ⟨by decide, by decide, by decide⟩

/-! ## Per-node dispatch
(`main_server/app/update_manager.py`, `UpdateManager._send_update_to_node`) -/

/-- How one dispatch HTTP call can resolve: a 200 response with a parsed
JSON body (each key optional), a non-200 response, a timeout, or any
other raised exception. -/
inductive HttpResp
  | ok (success : Option Bool) (errorMessage : Option String)
      (healthCheckPassed : Option Bool)
  | httpErr (code : Nat) (text : String)
  | timeout
  | exc (msg : String)
deriving DecidableEq, Repr

/-- A `NodeUpdateStatus` database write issued by the dispatch task. -/
inductive DbOp
  | createNodeStatus (status : UpdateStatus)
  | updateNodeStatus (status : UpdateStatus) (errorMessage : Option String)
      (healthCheckPassed : Bool)
deriving DecidableEq, Repr

/-- The JSON dict `_send_update_to_node` returns to `asyncio.gather`. -/
structure ResultDict where
  success : Option Bool
  errorMessage : Option String
  healthCheckPassed : Option Bool
deriving DecidableEq, Repr

/-- One run of `UpdateManager._send_update_to_node` (lines 120-183): a
`NodeUpdateStatus` record is created with status IN_PROGRESS, then the
HTTP call is made; every way the call can resolve ends in exactly one
`update_node_update_status` write and a returned dict — the two `except`
clauses convert a timeout or any other exception into a FAILED record
and a `{"success": False, "error_message": ...}` dict, so no exception
escapes to the job level. -/
def sendUpdateToNode (resp : HttpResp) : List DbOp × ResultDict :=
  match resp with
  | HttpResp.ok s e h =>
    if s.getD false then
      ([DbOp.createNodeStatus UpdateStatus.inProgress,
        DbOp.updateNodeStatus UpdateStatus.success none (h.getD false)],
       ⟨s, e, h⟩)
    else
      ([DbOp.createNodeStatus UpdateStatus.inProgress,
        DbOp.updateNodeStatus UpdateStatus.failed
          (some (e.getD "Unknown error")) false],
       ⟨s, e, h⟩)
  | HttpResp.httpErr code text =>
    let m := "HTTP " ++ toString code ++ ": " ++ text
    ([DbOp.createNodeStatus UpdateStatus.inProgress,
      DbOp.updateNodeStatus UpdateStatus.failed (some m) false],
     ⟨some false, some m, none⟩)
  | HttpResp.timeout =>
    ([DbOp.createNodeStatus UpdateStatus.inProgress,
      DbOp.updateNodeStatus UpdateStatus.failed
        (some "Update timeout on node") false],
     ⟨some false, some "Update timeout on node", none⟩)
  | HttpResp.exc m =>
    let em := "Error sending update to node: " ++ m
    ([DbOp.createNodeStatus UpdateStatus.inProgress,
      DbOp.updateNodeStatus UpdateStatus.failed (some em) false],
     ⟨some false, some em, none⟩)

/-- C4 counterexample: on a successful dispatch, the `NodeUpdateStatus`
record is created with status IN_PROGRESS; no record with status PENDING
is ever created, contradicting the claim that the record is created as
PENDING. -/
theorem dispatch_record_created_in_progress_counterexample :
    (sendUpdateToNode (HttpResp.ok (some true) none (some true))).1.head?
        = some (DbOp.createNodeStatus UpdateStatus.inProgress) ∧
    DbOp.createNodeStatus UpdateStatus.pending ∉
      (sendUpdateToNode (HttpResp.ok (some true) none (some true))).1 := by
  refine ⟨by decide, by decide⟩

/-- C4 amended: for every dispatched node, a `NodeUpdateStatus` record
with status IN_PROGRESS (not PENDING) is created before the remote call,
and the record is updated exactly once to a terminal state — SUCCESS, or
FAILED with an `error_message` — after the call resolves, whether it
returned normally, returned a failure outcome, raised, or timed out; in
every case a result dict (never an exception) is handed back to the job
level. -/
theorem dispatch_record_lifecycle (resp : HttpResp) :
    ∃ t e h, (sendUpdateToNode resp).1 =
        [DbOp.createNodeStatus UpdateStatus.inProgress,
         DbOp.updateNodeStatus t e h] ∧
      (t = UpdateStatus.success ∨ t = UpdateStatus.failed) ∧
      (t = UpdateStatus.failed → e.isSome) := by
  cases resp with
  | ok s e h =>
    by_cases hs : s.getD false = true
    · exact ⟨UpdateStatus.success, none, h.getD false,
        by simp [sendUpdateToNode, hs], Or.inl rfl, by simp⟩
    · exact ⟨UpdateStatus.failed, some (e.getD "Unknown error"), false,
        by simp [sendUpdateToNode, hs], Or.inr rfl, by simp⟩
  | httpErr code text =>
    exact ⟨UpdateStatus.failed, some ("HTTP " ++ toString code ++ ": " ++ text),
      false, rfl, Or.inr rfl, by simp⟩
  | timeout =>
    exact ⟨UpdateStatus.failed, some "Update timeout on node", false, rfl,
      Or.inr rfl, by simp⟩
  | exc m =>
    exact ⟨UpdateStatus.failed, some ("Error sending update to node: " ++ m),
      false, rfl, Or.inr rfl, by simp⟩

/-- Witness for C4 (amended): on a timed-out dispatch the database trace
is exactly a create followed by one terminal update. -/
theorem dispatch_record_lifecycle_witness :
    (sendUpdateToNode HttpResp.timeout).1.length = 2 ∧
    (sendUpdateToNode HttpResp.timeout).1.head?
      = some (DbOp.createNodeStatus UpdateStatus.inProgress) := by
  obtain ⟨t, e, h, heq, _, _⟩ := dispatch_record_lifecycle HttpResp.timeout
  rw [heq]
  exact ⟨rfl, rfl⟩

/-! ## Request submission
(`main_server/app/main.py`, `create_update`;
`main_server/app/update_manager.py`, `UpdateManager.process_update_request`) -/

/-- How a submission can fail: an HTTP 400 raised by the validation loop,
or an HTTP 500 from the generic handler. -/
inductive SubmitErr
  | validation (msg : String)
  | internal (msg : String)
deriving DecidableEq, Repr

/-- An observable coordinator effect during submission. -/
inductive CoordOp
  | jobPersisted (jobId : String) (status : UpdateStatus)
  | executionScheduled (jobId : String)
deriving DecidableEq, Repr

/-- The validation loop of `create_update` (lines 134-140): the first
target node whose registry record is missing or not ONLINE produces an
HTTP 400 detail message; an empty target list produces none. -/
def validateTargets (registry : List NodeRec) (targets : List String) :
    Option String :=
  targets.findSome? (fun nid =>
    match lookupNode registry nid with
    | none => some ("Node " ++ nid ++ " not found")
    | some n =>
      if n.status = NodeStatus.online then none
      else some ("Node " ++ nid ++ " is not online"))

/-- One run of `create_update` followed by
`UpdateManager.process_update_request`: validation first; if it passes,
a `Job` in PENDING is persisted (`db.create_update_job`), asynchronous
execution is scheduled (`asyncio.create_task`), and the generated
`job_id` is returned immediately. A failed database insert raises
`Exception("Failed to create update job")`, which `create_update` maps
to an HTTP 500. -/
def createUpdate (registry : List NodeRec) (targets : List String)
    (jobId : String) (dbOk : Bool) : List CoordOp × Except SubmitErr String :=
  match validateTargets registry targets with
  | some m => ([], Except.error (SubmitErr.validation m))
  | none =>
    if dbOk then
      ([CoordOp.jobPersisted jobId UpdateStatus.pending,
        CoordOp.executionScheduled jobId],
       Except.ok jobId)
    else
      ([], Except.error (SubmitErr.internal "Failed to create update job"))

/-- C7 counterexample: a request with an empty `target_nodes` list is not
rejected — validation passes vacuously, a Job in PENDING is persisted,
execution is scheduled, and the job id is returned, contradicting the
claim that an empty target list fails validation before job creation. -/
theorem submit_empty_targets_not_rejected_counterexample :
    createUpdate [] [] "job-1" true =
      ([CoordOp.jobPersisted "job-1" UpdateStatus.pending,
        CoordOp.executionScheduled "job-1"],
       Except.ok "job-1") := by
  rfl

/-- C7 amended: submission rejects the request with a validation error
before any Job is created when some listed target node is unknown or not
ONLINE; otherwise — including when `target_nodes` is empty, which is not
rejected — it creates a Job in PENDING, persists it, schedules
asynchronous execution, and returns the generated `job_id` immediately
(the empty-target case only fails later, at dispatch time). -/
theorem submit_validation (registry : List NodeRec) (targets : List String)
    (jobId : String) :
    (∀ m, validateTargets registry targets = some m →
      createUpdate registry targets jobId true
        = ([], Except.error (SubmitErr.validation m))) ∧
    (validateTargets registry targets = none →
      createUpdate registry targets jobId true
        = ([CoordOp.jobPersisted jobId UpdateStatus.pending,
            CoordOp.executionScheduled jobId],
           Except.ok jobId)) ∧
    (validateTargets registry targets = none ↔
      ∀ nid ∈ targets, ∃ n, lookupNode registry nid = some n ∧
        n.status = NodeStatus.online) ∧
    (targets = [] → validateTargets registry targets = none) := by
  refine ⟨?_, ?_, ?_, ?_⟩
  · intro m hm
    rw [createUpdate, hm]
  · intro hv
    rw [createUpdate, hv, if_pos rfl]
  · rw [validateTargets, List.findSome?_eq_none_iff]
    constructor
    · intro h nid hnid
      have hv := h nid hnid
      cases hl : lookupNode registry nid with
      | none => simp [hl] at hv
      | some n =>
        simp only [hl] at hv
        by_cases hs : n.status = NodeStatus.online
        · exact ⟨n, rfl, hs⟩
        · rw [if_neg hs] at hv; exact absurd hv (by simp)
    · intro h nid hnid
      obtain ⟨n, hl, hs⟩ := h nid hnid
      simp only [hl, if_pos hs]
  · intro h
    rw [h, validateTargets]
    rfl

/-- Witness for C7 (amended): an unknown target node is rejected with a
validation error before job creation, while a request over a known
online node creates and schedules the PENDING job. -/
theorem submit_validation_witness :
    createUpdate [⟨"A", NodeStatus.online⟩] ["B"] "job-2" true
        = ([], Except.error (SubmitErr.validation "Node B not found")) ∧
    createUpdate [⟨"A", NodeStatus.online⟩] ["A"] "job-3" true
        = ([CoordOp.jobPersisted "job-3" UpdateStatus.pending,
            CoordOp.executionScheduled "job-3"],
           Except.ok "job-3") :=
  ⟨(submit_validation [⟨"A", NodeStatus.online⟩] ["B"] "job-2").1
      "Node B not found" (by decide),
   (submit_validation [⟨"A", NodeStatus.online⟩] ["A"] "job-3").2.1 (by decide)⟩

/-! ## Node update pipeline
(`regular_node/agent/update_handler.py`, `UpdateHandler.install_update`;
`regular_node_coap/agent/update_handler.py`, `CoAPUpdateHandler.install_update`) -/

/-- A result dict of the node pipeline or of one of its install steps;
keys that may be absent from the Python dict are `Option` fields, with
`none` meaning the key is missing. -/
structure Outcome where
  success : Bool
  errorMessage : Option String := none
  message : Option String := none
  healthCheckPassed : Option Bool := none
  rolledBack : Option Bool := none
deriving DecidableEq, Repr

/-- Invocation counts of the pipeline's two effectful branches. -/
structure PipeTrace where
  installCalls : Nat
  rollbackCalls : Nat
deriving DecidableEq, Repr

/-- Python `str()` of an optional string, as an f-string renders it. -/
def pyStr : Option String → String
  | some s => s
  | none => "None"

/-- The shared tail of both `install_update` variants (after the
type-specific install step returned `result`): on install success run
the health check, record it on the result, and either return or roll
back; on install failure roll back and return the install step's dict
unchanged. `_rollback_update` re-raises its own failures. -/
def installTail (health : Bool) (rollback : Except String Unit)
    (result : Outcome) : PipeTrace × Except String Outcome :=
  if result.success then
    if health then
      (⟨1, 0⟩, Except.ok { result with healthCheckPassed := some health })
    else
      match rollback with
      | Except.ok _ =>
        (⟨1, 1⟩, Except.ok
          { success := false
            errorMessage := some "Health check failed after update"
            rolledBack := some true })
      | Except.error e => (⟨1, 1⟩, Except.error e)
  else
    match rollback with
    | Except.ok _ => (⟨1, 1⟩, Except.ok result)
    | Except.error e => (⟨1, 1⟩, Except.error e)

/-- Step outcomes of one run of the HTTP node pipeline: what the backup
step, each type-specific install step, the health check and the
backup-restore step would produce. The install steps catch their own
exceptions and always return a dict, so they are plain `Outcome`s. -/
structure NodeEnv where
  backup : Except String String
  installService : Outcome
  installDriver : Outcome
  installPackage : Outcome
  health : Bool
  rollback : Except String Unit

/-- The update dict received by `UpdateHandler.install_update`;
`update_data.get("update_type")` yields `none` when the key is absent. -/
structure UpdateData where
  updateType : Option String
deriving DecidableEq, Repr

/-- The try-block of `UpdateHandler.install_update` (lines 27-65): backup,
then the `if/elif/elif/else` dispatch on `update_type` (an unknown type
raises `ValueError(f"Unknown update type: {update_type}")`), then the
health-gated commit-or-rollback tail. The `Except.error` carries the
text of a raised exception. -/
def installUpdateCore (env : NodeEnv) (d : UpdateData) :
    PipeTrace × Except String Outcome :=
  match env.backup with
  | Except.error e => (⟨0, 0⟩, Except.error e)
  | Except.ok _ =>
    if d.updateType = some "service" then
      installTail env.health env.rollback env.installService
    else if d.updateType = some "driver" then
      installTail env.health env.rollback env.installDriver
    else if d.updateType = some "package" then
      installTail env.health env.rollback env.installPackage
    else
      (⟨0, 0⟩, Except.error ("Unknown update type: " ++ pyStr d.updateType))

/-- Entry point `UpdateHandler.install_update` (lines 25-72): the try-block wrapped in
the catch-all `except` clause, which converts any raised exception into
`{"success": False, "error_message": str(e)}`. -/
def installUpdate (env : NodeEnv) (d : UpdateData) : Outcome × PipeTrace :=
  match installUpdateCore env d with
  | (tr, Except.ok o) => (o, tr)
  | (tr, Except.error e) => ({ success := false, errorMessage := some e }, tr)

/-- The type-specific install step the dispatch selects for a given
`update_type` value (meaningful for the three valid types). -/
def typeInstallResult (env : NodeEnv) (t : Option String) : Outcome :=
  if t = some "service" then env.installService
  else if t = some "driver" then env.installDriver
  else env.installPackage

/-- An environment in which the service install step reports success but
the post-install health check fails and the backup restore succeeds. -/
def envHealthFail : NodeEnv :=
  { backup := Except.ok "/opt/node-backups/pkg_service_1"
    installService :=
      { success := true, message := some "Service pkg updated successfully" }
    installDriver := { success := true }
    installPackage := { success := true }
    health := false
    rollback := Except.ok () }

/-- C3 counterexample: with a successful service install, a failing
health check and a successful restore, the returned outcome has
`success = false` and `rolled_back = true` but carries no
`health_check_passed` key at all — in particular it is not equal to
false, contradicting the claim that the outcome's `health_check_passed`
equals the health-check result. -/
theorem health_gate_hcp_absent_counterexample :
    (installUpdate envHealthFail ⟨some "service"⟩).1.success = false ∧
    (installUpdate envHealthFail ⟨some "service"⟩).1.rolledBack = some true ∧
    (installUpdate envHealthFail ⟨some "service"⟩).1.healthCheckPassed = none ∧
    (installUpdate envHealthFail ⟨some "service"⟩).1.healthCheckPassed
      ≠ some false := by
  refine ⟨rfl, rfl, rfl, by decide⟩

/-- C3 amended: whenever the type-specific install step reports success,
the health check returns false and the backup restore succeeds, the
backup-restore path runs exactly once and the pipeline returns
`{"success": False, "error_message": "Health check failed after update",
"rolled_back": True}` — a dict without a `health_check_passed` key
(readers applying the documented false default therefore observe
false). -/
theorem health_gated_rollback (env : NodeEnv) (d : UpdateData) (b : String)
    (hb : env.backup = Except.ok b)
    (ht : d.updateType = some "service" ∨ d.updateType = some "driver" ∨
      d.updateType = some "package")
    (hi : (typeInstallResult env d.updateType).success = true)
    (hh : env.health = false)
    (hr : env.rollback = Except.ok ()) :
    installUpdate env d =
      ({ success := false
         errorMessage := some "Health check failed after update"
         rolledBack := some true }, ⟨1, 1⟩) ∧
    (installUpdate env d).2.rollbackCalls = 1 := by
  have hmain : installUpdate env d =
      ({ success := false
         errorMessage := some "Health check failed after update"
         rolledBack := some true }, ⟨1, 1⟩) := by
    rcases ht with h | h | h
    · rw [typeInstallResult, if_pos h] at hi
      simp [installUpdate, installUpdateCore, installTail, hb, h, hi, hh, hr]
    · have hs : d.updateType ≠ some "service" := by rw [h]; decide
      rw [typeInstallResult, if_neg hs, if_pos h] at hi
      simp [installUpdate, installUpdateCore, installTail, hb, h, hi, hh, hr]
    · have hs : d.updateType ≠ some "service" := by rw [h]; decide
      have hdr : d.updateType ≠ some "driver" := by rw [h]; decide
      rw [typeInstallResult, if_neg hs, if_neg hdr] at hi
      simp [installUpdate, installUpdateCore, installTail, hb, h, hi, hh, hr]
  exact ⟨hmain, by rw [hmain]⟩

/-- Witness for C3 (amended): the concrete environment `envHealthFail`
with a service update descriptor takes the health-gated rollback path
exactly once. -/
theorem health_gated_rollback_witness :
    installUpdate envHealthFail ⟨some "service"⟩ =
      ({ success := false
         errorMessage := some "Health check failed after update"
         rolledBack := some true }, ⟨1, 1⟩) :=
  (health_gated_rollback envHealthFail ⟨some "service"⟩
    "/opt/node-backups/pkg_service_1" rfl (Or.inl rfl) rfl rfl rfl).1

/-! ## CoAP node pipeline with checksum verification
(`regular_node_coap/agent/update_handler.py`, `CoAPUpdateHandler.install_update`,
`_download_update`, `_verify_checksum`) -/

/-- Step outcomes of one run of the CoAP node pipeline. `digest algo bytes`
is the hex digest `hashlib.new(algo)` computes over the bytes, or `none`
when the algorithm name is unknown (in which case `_verify_checksum`
catches the raise and returns False). -/
structure CoapEnv where
  backup : Except String String
  download : Except String (List Nat)
  digest : String → List Nat → Option String
  installService : Outcome
  installDriver : Outcome
  installPackage : Outcome
  health : Bool
  rollback : Except String Unit

/-- The update dict received by `CoAPUpdateHandler.install_update`:
`update_type` defaults to `"package"` when absent
(`update_data.get('update_type', 'package')`), `checksum` to `None`. -/
structure CoapUpdateData where
  updateType : Option String
  checksum : Option String
deriving DecidableEq, Repr

/-- Python truthiness of an optional string (`if checksum and ...`). -/
def pyTruthy : Option String → Bool
  | some s => s ≠ ""
  | none => false

/-- Python `s.split(':', 1)` on a character list: `none` when the list
holds no colon, otherwise the characters before the first colon and the
characters after it. -/
def splitFirstColon : List Char → Option (List Char × List Char)
  | [] => none
  | c :: rest =>
    if c = ':' then some ([], rest)
    else
      match splitFirstColon rest with
      | some (a, b) => some (c :: a, b)
      | none => none

/-- The `algorithm, hash_value` extraction of `_verify_checksum` (lines
229-234): `expected_checksum.split(':', 1)` when the value contains a
colon (`':' in expected_checksum`), else the `sha256` default with the
whole value as the hex. -/
def parseChecksum (cs : String) : String × String :=
  match splitFirstColon cs.data with
  | some (a, b) => (⟨a⟩, ⟨b⟩)
  | none => ("sha256", cs)

/-- Verification step `CoAPUpdateHandler._verify_checksum` (lines 223-254): an empty
expected value passes; otherwise the file digest computed with the named
algorithm must equal the declared hex value exactly (an unknown
algorithm raises inside the helper, which is caught and reported as
False, here a `none` digest). -/
def verifyChecksum (digest : String → List Nat → Option String)
    (payload : List Nat) (cs : String) : Bool :=
  if cs = "" then true
  else digest (parseChecksum cs).1 payload == some (parseChecksum cs).2

/-- The try-block of `CoAPUpdateHandler.install_update` (lines 134-181):
backup, download, checksum gate (`if checksum and not await
self._verify_checksum(...)` raises
`Exception("Checksum verification failed")`), the `if/elif/elif/else`
dispatch on the defaulted `update_type`, then the shared health-gated
tail. -/
def coapInstallUpdateCore (env : CoapEnv) (d : CoapUpdateData) :
    PipeTrace × Except String Outcome :=
  match env.backup with
  | Except.error e => (⟨0, 0⟩, Except.error e)
  | Except.ok _ =>
    match env.download with
    | Except.error e => (⟨0, 0⟩, Except.error e)
    | Except.ok payload =>
      if pyTruthy d.checksum &&
          !(verifyChecksum env.digest payload (d.checksum.getD "")) then
        (⟨0, 0⟩, Except.error "Checksum verification failed")
      else
        let t := d.updateType.getD "package"
        if t = "service" then
          installTail env.health env.rollback env.installService
        else if t = "driver" then
          installTail env.health env.rollback env.installDriver
        else if t = "package" then
          installTail env.health env.rollback env.installPackage
        else
          (⟨0, 0⟩, Except.error ("Unknown update type: " ++ t))

/-- Entry point `CoAPUpdateHandler.install_update` (lines 132-188): the try-block
wrapped in the catch-all `except` clause converting any raised exception
into `{"success": False, "error_message": str(e)}`. -/
def coapInstallUpdate (env : CoapEnv) (d : CoapUpdateData) :
    Outcome × PipeTrace :=
  match coapInstallUpdateCore env d with
  | (tr, Except.ok o) => (o, tr)
  | (tr, Except.error e) => ({ success := false, errorMessage := some e }, tr)

/-- C2: for every descriptor carrying a non-empty `checksum`, the
verification step parses the field as `algorithm:hex` (defaulting the
algorithm to sha256 when no colon is present), accepts exactly when the
payload's digest under that algorithm equals the declared hex value, and
on a mismatch the attempt ends as a FAILED outcome with error message
`"Checksum verification failed"` and zero install-step invocations. -/
theorem checksum_gate (env : CoapEnv) (d : CoapUpdateData) (b : String)
    (payload : List Nat) (cs : String)
    (hb : env.backup = Except.ok b)
    (hd : env.download = Except.ok payload)
    (hc : d.checksum = some cs)
    (hcs : cs ≠ "") :
    (splitFirstColon cs.data = none → parseChecksum cs = ("sha256", cs)) ∧
    (verifyChecksum env.digest payload cs = true ↔
      env.digest (parseChecksum cs).1 payload = some (parseChecksum cs).2) ∧
    (env.digest (parseChecksum cs).1 payload ≠ some (parseChecksum cs).2 →
      coapInstallUpdate env d =
        ({ success := false
           errorMessage := some "Checksum verification failed" }, ⟨0, 0⟩)) := by
  refine ⟨?_, ?_, ?_⟩
  · intro hnone
    rw [parseChecksum, hnone]
  · rw [verifyChecksum, if_neg hcs]
    exact beq_iff_eq
  · intro hmis
    have hver : verifyChecksum env.digest payload cs = false := by
      rw [verifyChecksum, if_neg hcs]
      exact beq_eq_false_iff_ne.mpr hmis
    have htruthy : pyTruthy (some cs) = true := by
      rw [pyTruthy]
      simpa using hcs
    simp only [coapInstallUpdate, coapInstallUpdateCore, hb, hd, hc,
      Option.getD_some, htruthy, hver, Bool.not_false, Bool.and_true,
      Bool.true_and, if_true]

/-- Witness for C2: a payload whose sha256 digest differs from the
declared (unprefixed, hence sha256-defaulted) hex value is rejected
before the install step runs. -/
theorem checksum_gate_witness :
    coapInstallUpdate
        { backup := Except.ok "/opt/node-backups/pkg_package_1"
          download := Except.ok [1, 2, 3]
          digest := fun a p =>
            if a = "sha256" ∧ p = [1, 2, 3] then some "aabb" else none
          installService := { success := true }
          installDriver := { success := true }
          installPackage := { success := true }
          health := true
          rollback := Except.ok () }
        ⟨some "package", some "ffff"⟩ =
      ({ success := false
         errorMessage := some "Checksum verification failed" }, ⟨0, 0⟩) :=
  (checksum_gate
    { backup := Except.ok "/opt/node-backups/pkg_package_1"
      download := Except.ok [1, 2, 3]
      digest := fun a p =>
        if a = "sha256" ∧ p = [1, 2, 3] then some "aabb" else none
      installService := { success := true }
      installDriver := { success := true }
      installPackage := { success := true }
      health := true
      rollback := Except.ok () }
    ⟨some "package", some "ffff"⟩ "/opt/node-backups/pkg_package_1"
    [1, 2, 3] "ffff" rfl rfl rfl (by decide)).2.2 (by decide)

/-- C10: the pipeline entry points are total at their public boundary —
every raised internal exception is caught and converted into a dict with
`success = False` and the exception text as `error_message`, never
propagated. Concretely: a failing backup, an unknown `update_type`, and
(in the CoAP variant) a failing download each end the attempt with that
converted dict and zero install-step invocations; and in general any
`Except.error` produced by a try-block becomes such a dict. -/
theorem pipeline_totality (env : NodeEnv) (d : UpdateData) (envC : CoapEnv)
    (dc : CoapUpdateData) (m : String) :
    (env.backup = Except.error m →
      installUpdate env d = ({ success := false, errorMessage := some m }, ⟨0, 0⟩)) ∧
    (∀ b t, env.backup = Except.ok b → d.updateType = some t →
      t ≠ "service" → t ≠ "driver" → t ≠ "package" →
      installUpdate env d =
        ({ success := false
           errorMessage := some ("Unknown update type: " ++ t) }, ⟨0, 0⟩)) ∧
    (∀ b, envC.backup = Except.ok b → envC.download = Except.error m →
      coapInstallUpdate envC dc =
        ({ success := false, errorMessage := some m }, ⟨0, 0⟩)) ∧
    (∀ tr e, installUpdateCore env d = (tr, Except.error e) →
      installUpdate env d = ({ success := false, errorMessage := some e }, tr)) ∧
    (∀ tr e, coapInstallUpdateCore envC dc = (tr, Except.error e) →
      coapInstallUpdate envC dc =
        ({ success := false, errorMessage := some e }, tr)) := by
  refine ⟨?_, ?_, ?_, ?_, ?_⟩
  · intro hb
    rw [installUpdate, installUpdateCore, hb]
  · intro b t hb ht hs hd hp
    have h₁ : d.updateType ≠ some "service" := by
      rw [ht]; simpa using hs
    have h₂ : d.updateType ≠ some "driver" := by
      rw [ht]; simpa using hd
    have h₃ : d.updateType ≠ some "package" := by
      rw [ht]; simpa using hp
    rw [installUpdate, installUpdateCore, hb, if_neg h₁, if_neg h₂, if_neg h₃, ht]
    rfl
  · intro b hb hd
    rw [coapInstallUpdate, coapInstallUpdateCore, hb, hd]
  · intro tr e hcore
    rw [installUpdate, hcore]
  · intro tr e hcore
    rw [coapInstallUpdate, hcore]

/-- Witness for C10: concrete failing-backup, unknown-type and
failing-download runs each return the converted failure dict with no
install-step invocation. -/
theorem pipeline_totality_witness :
    installUpdate
        { backup := Except.error "Failed to create backup"
          installService := { success := true }
          installDriver := { success := true }
          installPackage := { success := true }
          health := true
          rollback := Except.ok () } ⟨some "service"⟩ =
      ({ success := false
         errorMessage := some "Failed to create backup" }, ⟨0, 0⟩) ∧
    installUpdate envHealthFail ⟨some "firmware"⟩ =
      ({ success := false
         errorMessage := some "Unknown update type: firmware" }, ⟨0, 0⟩) ∧
    coapInstallUpdate
        { backup := Except.ok "/opt/node-backups/pkg_package_2"
          download := Except.error "Failed to download file: CoAP 4.04"
          digest := fun _ _ => none
          installService := { success := true }
          installDriver := { success := true }
          installPackage := { success := true }
          health := true
          rollback := Except.ok () } ⟨none, none⟩ =
      ({ success := false
         errorMessage := some "Failed to download file: CoAP 4.04" }, ⟨0, 0⟩) := by
  refine ⟨?_, ?_, ?_⟩
  · exact (pipeline_totality
      { backup := Except.error "Failed to create backup"
        installService := { success := true }
        installDriver := { success := true }
        installPackage := { success := true }
        health := true
        rollback := Except.ok () } ⟨some "service"⟩
      { backup := Except.ok ""
        download := Except.ok []
        digest := fun _ _ => none
        installService := { success := true }
        installDriver := { success := true }
        installPackage := { success := true }
        health := true
        rollback := Except.ok () } ⟨none, none⟩
      "Failed to create backup").1 rfl
  · exact (pipeline_totality envHealthFail ⟨some "firmware"⟩
      { backup := Except.ok ""
        download := Except.ok []
        digest := fun _ _ => none
        installService := { success := true }
        installDriver := { success := true }
        installPackage := { success := true }
        health := true
        rollback := Except.ok () } ⟨none, none⟩ "x").2.1
      "/opt/node-backups/pkg_service_1" "firmware" rfl rfl
      (by decide) (by decide) (by decide)
  · exact (pipeline_totality envHealthFail ⟨some "service"⟩
      { backup := Except.ok "/opt/node-backups/pkg_package_2"
        download := Except.error "Failed to download file: CoAP 4.04"
        digest := fun _ _ => none
        installService := { success := true }
        installDriver := { success := true }
        installPackage := { success := true }
        health := true
        rollback := Except.ok () } ⟨none, none⟩
      "Failed to download file: CoAP 4.04").2.2.1
      "/opt/node-backups/pkg_package_2" rfl rfl

/-! ## Node rollback endpoint (`regular_node/agent/main.py`, `receive_rollback`) -/

/-- The acknowledgement dict the rollback endpoint returns. -/
structure RollbackReply where
  success : Bool
  message : String
  jobId : Option String
deriving DecidableEq, Repr

/-- Observable effects of the rollback endpoint: which backups it
restores and how many times it re-runs the install pipeline. -/
structure RollbackTrace where
  restoredBackups : List String
  installResubmissions : Nat
deriving DecidableEq, Repr

/-- One run of `receive_rollback` (lines 226-245): the handler reads
`job_id` from the request body and returns `{"success": True, "message":
f"Rollback completed for job {job_id}", "job_id": job_id}`. The body
performs no backup lookup, no file restoration and no re-invocation of
the install pipeline — the source comment reads "For now, just
acknowledge the rollback. In a real implementation, this would restore
from backup". -/
def receiveRollback (jobId : Option String) : RollbackReply × RollbackTrace :=
  (⟨true, "Rollback completed for job " ++ pyStr jobId, jobId⟩, ⟨[], 0⟩)

/-- C9 counterexample: for a concrete rollback command the endpoint
reports success yet restores no backup at all, contradicting the claim
that it locates the most recent backup and restores its files. -/
theorem rollback_endpoint_no_restore_counterexample :
    (receiveRollback (some "job-9")).1.success = true ∧
    (receiveRollback (some "job-9")).1.message = "Rollback completed for job job-9" ∧
    (receiveRollback (some "job-9")).2.restoredBackups = [] := by
  refine ⟨rfl, rfl, rfl⟩

/-- C9 amended: for every rollback command, the node's rollback entry
point acknowledges it with `success = True` and the message
`"Rollback completed for job {job_id}"` without restoring any backup; it
also does not reopen or resubmit the original install. -/
theorem rollback_endpoint_acknowledges_only (jobId : Option String) :
    (receiveRollback jobId).1.success = true ∧
    (receiveRollback jobId).1.message
      = "Rollback completed for job " ++ pyStr jobId ∧
    (receiveRollback jobId).1.jobId = jobId ∧
    (receiveRollback jobId).2.restoredBackups = [] ∧
    (receiveRollback jobId).2.installResubmissions = 0 :=
  ⟨rfl, rfl, rfl, rfl, rfl⟩

end TechTaskArm
